import Mathlib

/-!
Verification development for the gauss-pi-calc repository.

The repository computes pi with the Gauss-Legendre (Brent-Salamin) iteration
over Python Decimal arithmetic, overlapping the two per-round sub-computations
with a thread pool. This file gives a shallow embedding of the two source
files (src/gauss_legendre_pi.py and the identical
src/gauss_legendre_pi_multithread_Version2.py) and proves or refutes the
specification claims about them.

Decimal values are embedded as integer coefficients times powers of ten, and
every context operation is the correctly rounded (round-half-even) exact
result at the context precision, exactly as the decimal module computes it.
Wall-clock readings (time.time) are not modelled; the progress callback is
modelled by the list of its deterministic arguments
(round index, total rounds, estimated digits).

A key point of the embedding, validated against the behaviour of the Python
runtime: each round submits the averaging task lambda: (a + b) / 2 to a fresh
worker thread of a freshly created ThreadPoolExecutor. A new thread gets its
decimal context from the DefaultContext template, whose precision is 28, so
the averaging task always runs at precision 28, not at the working precision
digits + 10. The sqrt task is unaffected because sqrt_decimal installs the
precision of the context object passed from the main thread. Scheduling does
not change this: the averaging task is the first task of a fresh pool, hence
always runs on a thread that has not executed sqrt_decimal before it.
-/

deriving instance DecidableEq for Except

set_option maxRecDepth 40000
set_option maxHeartbeats 8000000

namespace GaussPi

/-- Largest j at most k with j * j at most n: a kernel-computable integer
square root bounded by k, by downward structural search. -/
def natSqrtAux (n : Nat) : Nat → Nat
| 0 => 0
| k + 1 => if (k + 1) * (k + 1) ≤ n then k + 1 else natSqrtAux n k

/-- Kernel-computable integer square root; proved equal to Nat.sqrt below. -/
def natSqrt (n : Nat) : Nat := natSqrtAux n n

theorem natSqrtAux_eq (n : Nat) : ∀ k : Nat, natSqrtAux n k = min (Nat.sqrt n) k := by
  intro k
  induction k with
  | zero => simp [natSqrtAux]
  | succ k ih =>
    rw [natSqrtAux]
    by_cases h : (k + 1) * (k + 1) ≤ n
    · have : k + 1 ≤ Nat.sqrt n := Nat.le_sqrt.mpr h
      simp [h, Nat.min_eq_right this]
    · have hlt : n < (k + 1) * (k + 1) := Nat.lt_of_not_le h
      have : Nat.sqrt n ≤ k := by
        have := Nat.sqrt_lt.mpr hlt
        omega
      simp [h, ih]
      omega

theorem natSqrt_eq (n : Nat) : natSqrt n = Nat.sqrt n := by
  rw [natSqrt, natSqrtAux_eq]
  exact Nat.min_eq_left (Nat.sqrt_le_self n)

/-- A finite Python Decimal value: an integer coefficient times a power of
ten. This folds the (sign, coefficient, exponent) triple of the decimal
module into a signed coefficient. -/
structure D where
  m : Int
  e : Int
deriving DecidableEq

/-- Number of decimal digits of a natural number, with structural fuel; fuel n
always suffices because the argument shrinks by a factor of ten each step. -/
def numDigitsAux : Nat → Nat → Nat
| 0, _ => 1
| f + 1, n => if n < 10 then 1 else numDigitsAux f (n / 10) + 1

/-- Number of decimal digits of a natural number (1 for 0), the coefficient
length used by the decimal module. -/
def numDigits (n : Nat) : Nat := numDigitsAux n n

/-- Round a decimal value to prec significant digits with round-half-even, as
the context fix step of the decimal module does after every operation. Values
already within prec digits are returned unchanged. -/
def roundD (prec : Nat) (x : D) : D :=
  if x.m = 0 then x
  else
    let n := x.m.natAbs
    let sgn : Int := if x.m < 0 then -1 else 1
    let len := numDigits n
    if len ≤ prec then x
    else
      let d := len - prec
      let q := n / 10 ^ d
      let r := n % 10 ^ d
      let half := 5 * 10 ^ (d - 1)
      let q2 := if half < r then q + 1
        else if r < half then q
        else if q % 2 = 1 then q + 1 else q
      if q2 = 10 ^ prec then ⟨sgn * (10 : Int) ^ (prec - 1), x.e + d + 1⟩
      else ⟨sgn * (q2 : Int), x.e + d⟩

/-- Numeric equality of decimal values: the decimal module compares by value,
not by representation. -/
def eqD (x y : D) : Bool :=
  let e := min x.e y.e
  x.m * (10 : Int) ^ (x.e - e).toNat == y.m * (10 : Int) ^ (y.e - e).toNat

/-- Context addition: the exact sum at the smaller exponent, then rounding. -/
def addD (prec : Nat) (x y : D) : D :=
  let e := min x.e y.e
  roundD prec ⟨x.m * (10 : Int) ^ (x.e - e).toNat + y.m * (10 : Int) ^ (y.e - e).toNat, e⟩

/-- Context subtraction. -/
def subD (prec : Nat) (x y : D) : D := addD prec x ⟨-y.m, y.e⟩

/-- Context multiplication: the exact product, then rounding. -/
def mulD (prec : Nat) (x y : D) : D := roundD prec ⟨x.m * y.m, x.e + y.e⟩

/-- Squaring: a Decimal power with integer exponent 2 is the correctly
rounded exact square, which coincides with context multiplication of a value
by itself. -/
def sqD (prec : Nat) (x : D) : D := mulD prec x x

/-- Exceptions the modelled code can raise. invalidOperation is
decimal.InvalidOperation (0 / 0, DivisionUndefined); divisionByZero is
decimal.DivisionByZero; precValueError is the ValueError from assigning a
non-positive context precision; complexTypeError is the TypeError from int()
applied to the complex value (negative digits) ** 0.5; maxWorkersValueError is
the ValueError from ThreadPoolExecutor with a non-positive worker count. -/
inductive PyErr
| invalidOperation
| divisionByZero
| precValueError
| complexTypeError
| maxWorkersValueError
deriving DecidableEq

/-- Remove trailing zeros from an exact quotient coefficient, at most fuel of
them, mirroring the ideal-exponent adjustment of decimal division. Returns the
reduced coefficient and the number of zeros removed. -/
def dropZeros : Nat → Nat → Nat × Nat
| 0, c => (c, 0)
| f + 1, c =>
  if c % 10 = 0 then
    let p := dropZeros f (c / 10)
    (p.1, p.2 + 1)
  else (c, 0)

/-- Context division, mirroring decimal division exactly: a zero divisor
raises; otherwise the quotient is computed to prec + 1 or prec + 2 digits, an
inexact quotient gets its final digit bumped off multiples of five so that the
subsequent rounding is the correct rounding of the exact quotient, and an
exact quotient has trailing zeros removed down to the ideal exponent. -/
def divD (prec : Nat) (x y : D) : Except PyErr D :=
  if y.m = 0 then
    if x.m = 0 then .error .invalidOperation else .error .divisionByZero
  else if x.m = 0 then .ok ⟨0, x.e - y.e⟩
  else
    let sgn : Int := if (x.m < 0) = (y.m < 0) then 1 else -1
    let n1 := x.m.natAbs
    let n2 := y.m.natAbs
    let shift : Int := (numDigits n2 : Int) - (numDigits n1 : Int) + (prec : Int) + 1
    let exp : Int := x.e - y.e - shift
    let num := if 0 ≤ shift then n1 * 10 ^ shift.toNat else n1
    let den := if 0 ≤ shift then n2 else n2 * 10 ^ (-shift).toNat
    let coeff := num / den
    let r := num % den
    if r ≠ 0 then
      let c := if coeff % 5 = 0 then coeff + 1 else coeff
      .ok (roundD prec ⟨sgn * (c : Int), exp⟩)
    else
      let p := dropZeros (x.e - y.e - exp).toNat coeff
      .ok (roundD prec ⟨sgn * (p.1 : Int), exp + (p.2 : Int)⟩)

/-- The decimal constant 2. -/
def two : D := ⟨2, 0⟩

/-- One Newton step of the square-root loop: s goes to (s + x / s) / 2 under
the context precision, propagating decimal exceptions. -/
def sqrtStep (prec : Nat) (x s : D) : Except PyErr D :=
  match divD prec x s with
  | .error e => .error e
  | .ok q => divD prec (addD prec s q) two

/-- The while loop of sqrt_decimal with explicit fuel; none models that the
loop has not terminated within fuel iterations. The loop exits when two
successive iterates are numerically equal, and the returned value is the
unary plus (a context rounding) of the final iterate. -/
def sqrtGo (prec : Nat) (x : D) : Nat → D → Option (Except PyErr D)
| 0, _ => none
| f + 1, s =>
  match sqrtStep prec x s with
  | .error e => some (.error e)
  | .ok s2 => if eqD s2 s then some (.ok (roundD prec s2)) else sqrtGo prec x f s2

/-- Embedding of sqrt_decimal from src/gauss_legendre_pi.py: initial guess
x / 2, then Newton iteration until two successive iterates compare equal at
the context precision. The context argument of the Python function only
supplies the precision, modelled by prec. -/
def sqrt_decimal (prec : Nat) (x : D) (fuel : Nat) : Option (Except PyErr D) :=
  match divD prec x two with
  | .error e => some (.error e)
  | .ok s0 => sqrtGo prec x fuel s0

/-- Embedding of the round-count computation
total_iters = min(max(int(2.5 * digits ** 0.5), 10), 40) from the source. The
source computes 2.5 * sqrt(digits) in IEEE double arithmetic; its floor equals
Nat.sqrt (25 * digits / 4) in exact arithmetic, and the two roundings of the
double computation (relative error under 2 ulp) cannot move the value across
an integer until 25 * digits / 4 is within 2 ulp of a square, which first
happens for digits beyond 4e13, where the clamp at 40 makes the difference
unobservable; so this exact formula agrees with the float computation at every
digit count. -/
def total_iters (digits : Nat) : Nat := min (max (natSqrt (25 * digits / 4)) 10) 40

/-- The four running quantities of the Gauss-Legendre iteration. -/
structure GState where
  a : D
  b : D
  t : D
  p : D
deriving DecidableEq

/-- Outcome of a run of gauss_legendre_pi: the pi string together with the
sequence of progress-callback argument triples (round index, total rounds,
estimated digits), or an exception, or fuel exhaustion in a sqrt loop. The
elapsed-time callback argument is wall-clock and is not modelled. -/
inductive RunResult
| noFuel
| error (e : PyErr)
| done (out : String) (calls : List (Nat × Nat × Nat))
deriving DecidableEq

/-- Decimal digit to character. -/
def digitChar : Nat → Char
| 0 => '0'
| 1 => '1'
| 2 => '2'
| 3 => '3'
| 4 => '4'
| 5 => '5'
| 6 => '6'
| 7 => '7'
| 8 => '8'
| _ => '9'

/-- Decimal digit characters of a natural number, most significant first,
with structural fuel. -/
def natDigitsAux : Nat → Nat → List Char
| 0, _ => []
| f + 1, n => if n < 10 then [digitChar n] else natDigitsAux f (n / 10) ++ [digitChar (n % 10)]

/-- Decimal digit characters of a natural number. -/
def natDigits (n : Nat) : List Char := natDigitsAux (n + 1) n

/-- The str() rendering of a finite Decimal, following the printing rules of
the decimal module: plain notation when the exponent is at most zero and the
adjusted exponent is above -6, scientific notation otherwise. -/
def pyStr (x : D) : List Char :=
  let sign : List Char := if x.m < 0 then ['-'] else []
  let ds := natDigits x.m.natAbs
  let len : Int := (ds.length : Int)
  let leftdigits : Int := x.e + len
  if x.e ≤ 0 ∧ -6 < leftdigits then
    if leftdigits ≤ 0 then
      sign ++ ['0', '.'] ++ List.replicate (-leftdigits).toNat '0' ++ ds
    else if len ≤ leftdigits then
      sign ++ ds ++ List.replicate (leftdigits - len).toNat '0'
    else
      sign ++ ds.take leftdigits.toNat ++ ['.'] ++ ds.drop leftdigits.toNat
  else
    let expo := leftdigits - 1
    let frac : List Char := if 1 < ds.length then '.' :: ds.drop 1 else []
    let esign : List Char := if 0 ≤ expo then ['+'] else ['-']
    sign ++ ds.take 1 ++ frac ++ ['E'] ++ esign ++ natDigits expo.natAbs

/-- One round of the engine loop. The averaging task lambda: (a + b) / 2 is
submitted to a fresh worker thread of a fresh ThreadPoolExecutor; a new thread
takes its decimal context from the DefaultContext template, so the averaging
runs at precision 28. The sqrt task installs the precision of the context
object passed from the main thread, so it runs at the working precision, and
its argument a * b is evaluated by the main thread at the working precision.
After both futures are joined, t, a, b, p are updated in source order. -/
def roundBody (prec fuel : Nat) (st : GState) : Option (Except PyErr GState) :=
  match divD 28 (addD 28 st.a st.b) two with
  | .error e => some (.error e)
  | .ok aNext =>
    match sqrt_decimal prec (mulD prec st.a st.b) fuel with
    | none => none
    | some (.error e) => some (.error e)
    | some (.ok bNext) =>
      let t2 := subD prec st.t (mulD prec st.p (sqD prec (subD prec st.a aNext)))
      some (.ok ⟨aNext, bNext, t2, mulD prec st.p two⟩)

/-- The statement after the loop: pi = ((a + b) ** 2) / (4 * t), then
str(+pi) truncated to digits + 2 characters. -/
def finalPi (prec digits : Nat) (st : GState) (calls : List (Nat × Nat × Nat)) : RunResult :=
  match divD prec (sqD prec (addD prec st.a st.b)) (mulD prec ⟨4, 0⟩ st.t) with
  | .error e => .error e
  | .ok piv => .done (String.mk ((pyStr (roundD prec piv)).take (digits + 2))) calls

/-- The engine loop over the remaining rounds, carrying the 0-based round
index, the state and the accumulated callback records. Each round first
creates the thread pool, which raises ValueError when the worker count is not
positive. The estimated digits int((i + 1) / total * digits) is modelled by
exact integer division; for every digit count evaluated in this development
the double-precision computation agrees with the exact floor. -/
def gaussLoop (prec fuel digits total : Nat) (nThreads : Int) :
    Nat → Nat → GState → List (Nat × Nat × Nat) → RunResult
| 0, _, st, calls => finalPi prec digits st calls
| r + 1, i, st, calls =>
  if nThreads ≤ 0 then .error .maxWorkersValueError
  else
    match roundBody prec fuel st with
    | none => .noFuel
    | some (.error e) => .error e
    | some (.ok st2) =>
      gaussLoop prec fuel digits total nThreads r (i + 1) st2
        (calls ++ [(i + 1, total, (i + 1) * digits / total)])

/-- Embedding of gauss_legendre_pi from src/gauss_legendre_pi.py. The digits
and thread-count arguments are Python integers; fuel bounds the sqrt loops.
Setting the context precision digits + 10 raises ValueError when that is not
positive; for negative digits, digits ** 0.5 is a complex number and int() of
it raises TypeError, after the initial b has already been computed. The
initial state is a = 1, b = 1 / sqrt_decimal(2), t = 0.25, p = 1. -/
def gauss_legendre_pi (digits nThreads : Int) (fuel : Nat) : RunResult :=
  if digits + 10 < 1 then .error .precValueError
  else
    let prec := (digits + 10).toNat
    match sqrt_decimal prec two fuel with
    | none => .noFuel
    | some (.error e) => .error e
    | some (.ok r2) =>
      match divD prec ⟨1, 0⟩ r2 with
      | .error e => .error e
      | .ok b0 =>
        if digits < 0 then .error .complexTypeError
        else
          let d := digits.toNat
          gaussLoop prec fuel d (total_iters d) nThreads (total_iters d) 0
            ⟨⟨1, 0⟩, b0, ⟨25, -2⟩, ⟨1, 0⟩⟩ []

/-- The output string of a completed run. -/
def outStr : RunResult → Option String
| .done s _ => some s
| _ => none

/-- The callback argument sequence of a completed run. -/
def callList : RunResult → Option (List (Nat × Nat × Nat))
| .done _ c => some c
| _ => none

/-!
Embedding of src/gauss_legendre_pi_multithread_Version2.py. Its functions
sqrt_decimal and gauss_legendre_pi are character-for-character identical to
the ones in src/gauss_legendre_pi.py; the two files differ only in comments
and docstrings. The definitions below therefore repeat the bodies above.
-/

/-- The Newton step of the sqrt loop of the second file. -/
def sqrtStepV2 (prec : Nat) (x s : D) : Except PyErr D :=
  match divD prec x s with
  | .error e => .error e
  | .ok q => divD prec (addD prec s q) two

/-- The sqrt while loop of the second file. -/
def sqrtGoV2 (prec : Nat) (x : D) : Nat → D → Option (Except PyErr D)
| 0, _ => none
| f + 1, s =>
  match sqrtStepV2 prec x s with
  | .error e => some (.error e)
  | .ok s2 => if eqD s2 s then some (.ok (roundD prec s2)) else sqrtGoV2 prec x f s2

/-- Embedding of sqrt_decimal from the second file. -/
def sqrt_decimal_v2 (prec : Nat) (x : D) (fuel : Nat) : Option (Except PyErr D) :=
  match divD prec x two with
  | .error e => some (.error e)
  | .ok s0 => sqrtGoV2 prec x fuel s0

/-- The round-count computation of the second file. -/
def total_itersV2 (digits : Nat) : Nat := min (max (natSqrt (25 * digits / 4)) 10) 40

/-- One round of the engine loop of the second file. -/
def roundBodyV2 (prec fuel : Nat) (st : GState) : Option (Except PyErr GState) :=
  match divD 28 (addD 28 st.a st.b) two with
  | .error e => some (.error e)
  | .ok aNext =>
    match sqrt_decimal_v2 prec (mulD prec st.a st.b) fuel with
    | none => none
    | some (.error e) => some (.error e)
    | some (.ok bNext) =>
      let t2 := subD prec st.t (mulD prec st.p (sqD prec (subD prec st.a aNext)))
      some (.ok ⟨aNext, bNext, t2, mulD prec st.p two⟩)

/-- The final statement of the second file. -/
def finalPiV2 (prec digits : Nat) (st : GState) (calls : List (Nat × Nat × Nat)) : RunResult :=
  match divD prec (sqD prec (addD prec st.a st.b)) (mulD prec ⟨4, 0⟩ st.t) with
  | .error e => .error e
  | .ok piv => .done (String.mk ((pyStr (roundD prec piv)).take (digits + 2))) calls

/-- The engine loop of the second file. -/
def gaussLoopV2 (prec fuel digits total : Nat) (nThreads : Int) :
    Nat → Nat → GState → List (Nat × Nat × Nat) → RunResult
| 0, _, st, calls => finalPiV2 prec digits st calls
| r + 1, i, st, calls =>
  if nThreads ≤ 0 then .error .maxWorkersValueError
  else
    match roundBodyV2 prec fuel st with
    | none => .noFuel
    | some (.error e) => .error e
    | some (.ok st2) =>
      gaussLoopV2 prec fuel digits total nThreads r (i + 1) st2
        (calls ++ [(i + 1, total, (i + 1) * digits / total)])

/-- Embedding of gauss_legendre_pi from the second file. -/
def gauss_legendre_pi_v2 (digits nThreads : Int) (fuel : Nat) : RunResult :=
  if digits + 10 < 1 then .error .precValueError
  else
    let prec := (digits + 10).toNat
    match sqrt_decimal_v2 prec two fuel with
    | none => .noFuel
    | some (.error e) => .error e
    | some (.ok r2) =>
      match divD prec ⟨1, 0⟩ r2 with
      | .error e => .error e
      | .ok b0 =>
        if digits < 0 then .error .complexTypeError
        else
          let d := digits.toNat
          gaussLoopV2 prec fuel d (total_itersV2 d) nThreads (total_itersV2 d) 0
            ⟨⟨1, 0⟩, b0, ⟨25, -2⟩, ⟨1, 0⟩⟩ []

/-!
A stable-precision variant, modelled from the spec, for comparison with the
source embedding.
-/

/-- Modelled from the spec: one round in which, as spec sections 4.1 and 2
require (a precision context stable for the lifetime of a run, read by all
arithmetic), the averaging sub-computation also runs at the working precision
digits + 10 instead of the worker-default precision 28. Everything else is as
in roundBody. -/
def roundBodyStable (prec fuel : Nat) (st : GState) : Option (Except PyErr GState) :=
  match divD prec (addD prec st.a st.b) two with
  | .error e => some (.error e)
  | .ok aNext =>
    match sqrt_decimal prec (mulD prec st.a st.b) fuel with
    | none => none
    | some (.error e) => some (.error e)
    | some (.ok bNext) =>
      let t2 := subD prec st.t (mulD prec st.p (sqD prec (subD prec st.a aNext)))
      some (.ok ⟨aNext, bNext, t2, mulD prec st.p two⟩)

/-- Modelled from the spec: the engine loop with the stable working
precision. -/
def gaussLoopStable (prec fuel digits total : Nat) :
    Nat → GState → List (Nat × Nat × Nat) → RunResult
| 0, st, calls => finalPi prec digits st calls
| r + 1, st, calls =>
  match roundBodyStable prec fuel st with
  | none => .noFuel
  | some (.error e) => .error e
  | some (.ok st2) =>
    gaussLoopStable prec fuel digits total r st2
      (calls ++ [(total - r, total, (total - r) * digits / total)])

/-- Modelled from the spec: the whole run at the stable working precision
digits + 10. -/
def gauss_stable (digits fuel : Nat) : RunResult :=
  let prec := digits + 10
  match sqrt_decimal prec two fuel with
  | none => .noFuel
  | some (.error e) => .error e
  | some (.ok r2) =>
    match divD prec ⟨1, 0⟩ r2 with
    | .error e => .error e
    | .ok b0 =>
      gaussLoopStable prec fuel digits (total_iters digits) (total_iters digits)
        ⟨⟨1, 0⟩, b0, ⟨25, -2⟩, ⟨1, 0⟩⟩ []

/-!
Definitions built from the words of the claims, for comparison with the
source embedding.
-/

/-- The round count as claim C2 states it:
clamp(round(2.5 * sqrt(digits)), 10, 40) with round to nearest. Since
round(x) = floor(x + 1/2) and 2.5 * sqrt d = sqrt(25 d) / 2, the rounded
value is the largest k with (2 k - 1) ^ 2 at most 25 d, which is
(floor(sqrt(25 d)) + 1) / 2. At the counterexample below the value 2.5 *
sqrt 18 is not a half-integer, so the tie-breaking rule is irrelevant. -/
def total_rounds_claimed (digits : Nat) : Nat :=
  min (max ((natSqrt (25 * digits) + 1) / 2) 10) 40

/-- The estimated digits as claim C8 states them:
round((i / total) * digits) with round to nearest (round half up; the
counterexample value 1.5 rounds to 2 under every tie-breaking rule used by
Python). -/
def claimEst (i total digits : Nat) : Nat := (2 * i * digits + total) / (2 * total)

/-- The initial engine state as claim C6 states it: a = 1, b = 1 / sqrt 2
computed with the square-root routine at the working precision, t = 0.25,
p = 1. -/
def claimInit (prec fuel : Nat) : Option (Except PyErr GState) :=
  match sqrt_decimal prec two fuel with
  | none => none
  | some (.error e) => some (.error e)
  | some (.ok r2) =>
    match divD prec ⟨1, 0⟩ r2 with
    | .error e => some (.error e)
    | .ok b0 => some (.ok ⟨⟨1, 0⟩, b0, ⟨25, -2⟩, ⟨1, 0⟩⟩)

/-- The round map exactly as claim C6 states it: from the snapshotted state
(a, b, t, p), compute aN = (a + b) / 2 and bN = sqrt(a * b) as the delegated
concurrent sub-computations (hence the averaging under the worker context and
the square root at the working precision), then form
(aN, bN, t - p * (a - aN) ** 2, 2 * p). -/
def claimStep (prec fuel : Nat) (st : GState) : Option (Except PyErr GState) :=
  match divD 28 (addD 28 st.a st.b) two with
  | .error e => some (.error e)
  | .ok aN =>
    match sqrt_decimal prec (mulD prec st.a st.b) fuel with
    | none => none
    | some (.error e) => some (.error e)
    | some (.ok bN) =>
      some (.ok ⟨aN, bN, subD prec st.t (mulD prec st.p (sqD prec (subD prec st.a aN))),
        mulD prec st.p two⟩)

/-- Iterating the claimed round map, propagating failures. -/
def claimIter (prec fuel : Nat) : Nat → GState → Option (Except PyErr GState)
| 0, st => some (.ok st)
| r + 1, st =>
  match claimStep prec fuel st with
  | some (.ok st2) => claimIter prec fuel r st2
  | other => other

/-- The claimed final value pi = (a + b) ^ 2 / (4 t), rendered and truncated
to digits + 2 characters. -/
def claimOut (prec digits : Nat) (st : GState) : Option String :=
  match divD prec (sqD prec (addD prec st.a st.b)) (mulD prec ⟨4, 0⟩ st.t) with
  | .error _ => none
  | .ok piv => some (String.mk ((pyStr (roundD prec piv)).take (digits + 2)))

/-- The claimed pipeline of claim C6: the claimed initial state, total_iters
rounds of the claimed round map, then the claimed final formula. -/
def claimRun (digits fuel : Nat) : Option String :=
  let prec := digits + 10
  match claimInit prec fuel with
  | some (.ok st0) =>
    match claimIter prec fuel (total_iters digits) st0 with
    | some (.ok stF) => claimOut prec digits stF
    | _ => none
  | _ => none

/-!
Claim C2: the source truncates the round-count estimate instead of rounding
it to the nearest integer.
-/

/-- Claim C2 counterexample: at digits = 18 the code computes
total_iters = clamp(int(2.5 * sqrt 18), 10, 40) = clamp(10, 10, 40) = 10
rounds and the engine indeed publishes 10 progress records, while the claimed
formula clamp(round(2.5 * sqrt 18), 10, 40) gives 11, because 2.5 * sqrt 18
is about 10.6066: int() truncates where the claim rounds. -/
theorem total_iters_truncates_counterexample :
    total_iters 18 = 10 ∧ total_rounds_claimed 18 = 11 ∧
    total_iters 18 ≠ total_rounds_claimed 18 ∧
    Option.map List.length (callList (gauss_legendre_pi 18 1 200)) = some 10 :=
  ⟨by decide, by decide, by decide, by decide⟩

/-- Claim C2 amended: the number of rounds equals
clamp(floor(2.5 * sqrt digits), 10, 40) - the source truncates with int()
rather than rounding - and, as the claim asserts, this count is monotonically
non-decreasing in digits and always lies in the interval from 10 to 40. -/
theorem total_iters_floor_clamp_monotone_bounded :
    (∀ d : Nat, total_iters d = min (max (Nat.sqrt (25 * d / 4)) 10) 40) ∧
    (∀ d e : Nat, d ≤ e → total_iters d ≤ total_iters e) ∧
    (∀ d : Nat, 10 ≤ total_iters d ∧ total_iters d ≤ 40) := by
  refine ⟨fun d => by rw [total_iters, natSqrt_eq], fun d e h => ?_,
    fun d => by rw [total_iters]; omega⟩
  have h1 : 25 * d / 4 ≤ 25 * e / 4 := by omega
  have h2 : Nat.sqrt (25 * d / 4) ≤ Nat.sqrt (25 * e / 4) := Nat.sqrt_le_sqrt h1
  rw [total_iters, total_iters, natSqrt_eq, natSqrt_eq]
  omega

/-- Claim C2 witness: the monotonicity part of the amended claim applied at
the concrete pair 18 and 50. -/
theorem total_iters_monotone_witness : 18 ≤ 50 ∧ total_iters 18 ≤ total_iters 50 :=
  ⟨by decide, total_iters_floor_clamp_monotone_bounded.2.1 18 50 (by decide)⟩

/-!
Claim C3: the square-root loop has no iteration cap and the claimed bounded
termination fails: at precision 1 the Newton iterates of x = 7 enter the
two-cycle 3, 2, 3, 2, ... (7 / 3 rounds to 2, (3 + 2) / 2 = 2.5 rounds half
to even 2; 7 / 2 rounds to 4, (2 + 4) / 2 = 3), and two successive iterates
are never equal, so the while loop never exits.
-/

theorem sqrtGo_seven_cycle : ∀ f : Nat,
    sqrtGo 1 ⟨7, 0⟩ f ⟨3, 0⟩ = none ∧ sqrtGo 1 ⟨7, 0⟩ f ⟨2, 0⟩ = none := by
  intro f
  induction f with
  | zero => exact ⟨rfl, rfl⟩
  | succ f ih =>
    refine ⟨?_, ?_⟩
    · have h : sqrtGo 1 ⟨7, 0⟩ (f + 1) ⟨3, 0⟩ = sqrtGo 1 ⟨7, 0⟩ f ⟨2, 0⟩ := rfl
      rw [h]
      exact ih.2
    · have h : sqrtGo 1 ⟨7, 0⟩ (f + 1) ⟨2, 0⟩ = sqrtGo 1 ⟨7, 0⟩ f ⟨3, 0⟩ := rfl
      rw [h]
      exact ih.1

/-- Claim C3 is violated by the code: for the positive input x = 7 under a
precision-1 context the loop of sqrt_decimal never terminates, whatever
iteration bound is allowed - the iterates cycle between 3 and 2 forever, so
no cap of the form precision plus a constant is respected and the unmodified
loop runs unboundedly. -/
theorem sqrt_decimal_can_loop_forever :
    ∀ fuel : Nat, sqrt_decimal 1 ⟨7, 0⟩ fuel = none := by
  intro fuel
  cases fuel with
  | zero => rfl
  | succ f =>
    have h : sqrt_decimal 1 ⟨7, 0⟩ (f + 1) = sqrtGo 1 ⟨7, 0⟩ f ⟨3, 0⟩ := rfl
    rw [h]
    exact (sqrtGo_seven_cycle f).1

/-- Claim C4 is violated by the code: sqrt_decimal performs no domain check,
so on x = 0 the first loop iteration evaluates 0 / 0 and raises
decimal.InvalidOperation (DivisionUndefined), and on x = -1 under a
precision-1 context the third iteration divides by an iterate that has become
0 and raises decimal.DivisionByZero; no dedicated DomainError exists anywhere
in the code. -/
theorem sqrt_decimal_nonpositive_no_domain_error :
    sqrt_decimal 28 ⟨0, 0⟩ 5 = some (.error .invalidOperation) ∧
    sqrt_decimal 1 ⟨-1, 0⟩ 5 = some (.error .divisionByZero) :=
  ⟨by decide, by decide⟩

/-!
Claim C9: the worker count does not influence any computed value. In the
model this is structural: the thread count is consulted only to create the
pool. In the Python runtime it holds because the averaging task is always the
first task of a freshly created pool, hence always runs on a worker thread
with the default context, and the sqrt task installs its own precision, so
scheduling cannot change any rounding.
-/

theorem gaussLoop_threads_irrelevant (prec fuel digits total : Nat) (n1 n2 : Int)
    (h1 : 0 < n1) (h2 : 0 < n2) : ∀ r i st calls,
    gaussLoop prec fuel digits total n1 r i st calls =
    gaussLoop prec fuel digits total n2 r i st calls := by
  intro r
  induction r with
  | zero => intro i st calls; rfl
  | succ r ih =>
    intro i st calls
    simp only [gaussLoop]
    rw [if_neg (by omega : ¬ n1 ≤ 0), if_neg (by omega : ¬ n2 ≤ 0)]
    cases roundBody prec fuel st with
    | none => rfl
    | some x =>
      cases x with
      | error e => rfl
      | ok st2 => exact ih (i + 1) st2 _

/-- Claim C9: for every digits value (and every sqrt iteration budget),
running the engine with worker_count 1 and with worker_count 8 produces
identical results - the same pi string, the same callback records, or the
same failure - so the numeric output does not depend on the worker count. -/
theorem worker_count_does_not_affect_output :
    ∀ (digits : Int) (fuel : Nat),
    gauss_legendre_pi digits 1 fuel = gauss_legendre_pi digits 8 fuel := by
  intro digits fuel
  simp only [gauss_legendre_pi]
  by_cases h : digits + 10 < 1
  · rw [if_pos h, if_pos h]
  · rw [if_neg h, if_neg h]
    cases sqrt_decimal (digits + 10).toNat two fuel with
    | none => rfl
    | some x =>
      cases x with
      | error e => rfl
      | ok r2 =>
        dsimp only
        cases divD (digits + 10).toNat ⟨1, 0⟩ r2 with
        | error e => rfl
        | ok b0 =>
          dsimp only
          by_cases hd : digits < 0
          · rw [if_pos hd, if_pos hd]
          · rw [if_neg hd, if_neg hd]
            exact gaussLoop_threads_irrelevant _ _ _ _ 1 8 (by omega) (by omega) _ _ _ _

/-!
Claim C10: the second source file defines extensionally the same function.
-/

theorem sqrtStepV2_eq (prec : Nat) (x s : D) : sqrtStepV2 prec x s = sqrtStep prec x s := rfl

theorem sqrtGoV2_eq (prec : Nat) (x : D) : ∀ f s, sqrtGoV2 prec x f s = sqrtGo prec x f s := by
  intro f
  induction f with
  | zero => intro s; rfl
  | succ f ih =>
    intro s
    simp only [sqrtGoV2, sqrtGo, sqrtStepV2_eq]
    cases sqrtStep prec x s with
    | error e => rfl
    | ok s2 =>
      by_cases h : eqD s2 s
      · simp [h]
      · simp [h, ih]

theorem sqrt_decimal_v2_eq (prec : Nat) (x : D) (fuel : Nat) :
    sqrt_decimal_v2 prec x fuel = sqrt_decimal prec x fuel := by
  simp only [sqrt_decimal_v2, sqrt_decimal]
  cases divD prec x two with
  | error e => rfl
  | ok s0 => exact sqrtGoV2_eq prec x fuel s0

theorem total_itersV2_eq (d : Nat) : total_itersV2 d = total_iters d := rfl

theorem roundBodyV2_eq (prec fuel : Nat) (st : GState) :
    roundBodyV2 prec fuel st = roundBody prec fuel st := by
  simp only [roundBodyV2, roundBody, sqrt_decimal_v2_eq]

theorem gaussLoopV2_eq (prec fuel digits total : Nat) (n : Int) : ∀ r i st calls,
    gaussLoopV2 prec fuel digits total n r i st calls =
    gaussLoop prec fuel digits total n r i st calls := by
  intro r
  induction r with
  | zero => intro i st calls; rfl
  | succ r ih =>
    intro i st calls
    simp only [gaussLoopV2, gaussLoop, roundBodyV2_eq]
    by_cases h : n ≤ 0
    · simp [h]
    · simp only [if_neg h]
      cases roundBody prec fuel st with
      | none => rfl
      | some x =>
        cases x with
        | error e => rfl
        | ok st2 => exact ih _ _ _

/-- Claim C10: gauss_legendre_pi of src/gauss_legendre_pi.py and
gauss_legendre_pi of src/gauss_legendre_pi_multithread_Version2.py are
extensionally equal: on every (digits, n_threads) input and every sqrt
iteration budget they produce the same result, the same pi string and the
same callback argument records (the wall-clock elapsed argument is not
modelled). -/
theorem version2_extensionally_equal :
    ∀ (digits nThreads : Int) (fuel : Nat),
    gauss_legendre_pi_v2 digits nThreads fuel = gauss_legendre_pi digits nThreads fuel := by
  intro digits nThreads fuel
  simp only [gauss_legendre_pi_v2, gauss_legendre_pi, sqrt_decimal_v2_eq, total_itersV2_eq]
  by_cases h : digits + 10 < 1
  · simp [h]
  · simp only [if_neg h]
    cases sqrt_decimal (digits + 10).toNat two fuel with
    | none => rfl
    | some x =>
      cases x with
      | error e => rfl
      | ok r2 =>
        dsimp only
        cases divD (digits + 10).toNat ⟨1, 0⟩ r2 with
        | error e => rfl
        | ok b0 =>
          dsimp only
          by_cases hd : digits < 0
          · simp [hd]
          · simp only [if_neg hd]
            exact gaussLoopV2_eq _ _ _ _ _ _ _ _ _

/-!
Claim C6: the engine follows the claimed state recurrence.
-/

theorem gaussLoop_claimIter (prec fuel digits total : Nat) (n : Int) (hn : 0 < n) :
    ∀ r i st calls, outStr (gaussLoop prec fuel digits total n r i st calls) =
      (match claimIter prec fuel r st with
       | some (Except.ok stF) => claimOut prec digits stF
       | _ => none) := by
  intro r
  induction r with
  | zero =>
    intro i st calls
    simp only [gaussLoop, claimIter, finalPi, claimOut]
    cases divD prec (sqD prec (addD prec st.a st.b)) (mulD prec ⟨4, 0⟩ st.t) with
    | error e => rfl
    | ok piv => rfl
  | succ r ih =>
    intro i st calls
    simp only [gaussLoop, claimIter]
    rw [if_neg (by omega : ¬ n ≤ 0)]
    have hcs : claimStep prec fuel st = roundBody prec fuel st := rfl
    rw [hcs]
    cases roundBody prec fuel st with
    | none => rfl
    | some x =>
      cases x with
      | error e => rfl
      | ok st2 =>
        dsimp only
        exact ih (i + 1) st2 _

/-- Claim C6: for every digits value and positive worker count, the output of
gauss_legendre_pi is exactly the claimed pipeline: start from the state
a = 1, b = 1 / sqrt 2, t = 0.25, p = 1; apply total_iters rounds of the map
taking the snapshotted (a, b, t, p) to (aN, bN, t - p * (a - aN) ^ 2, 2 * p)
with aN = (a + b) / 2 and bN = sqrt(a * b) as the two delegated
sub-computations; and emit pi = (a + b) ^ 2 / (4 t). -/
theorem engine_state_recurrence :
    ∀ (digits : Nat) (n : Int) (fuel : Nat), 0 < n →
    outStr (gauss_legendre_pi digits n fuel) = claimRun digits fuel := by
  intro digits n fuel hn
  have h1 : ¬((digits : Int) + 10 < 1) := by omega
  have h2 : ((digits : Int) + 10).toNat = digits + 10 := by omega
  have h3 : ¬((digits : Int) < 0) := by omega
  have h4 : (digits : Int).toNat = digits := by omega
  simp only [gauss_legendre_pi, claimRun, claimInit, if_neg h1, h2, h4]
  cases sqrt_decimal (digits + 10) two fuel with
  | none => rfl
  | some x =>
    cases x with
    | error e => rfl
    | ok r2 =>
      dsimp only
      cases divD (digits + 10) ⟨1, 0⟩ r2 with
      | error e => rfl
      | ok b0 =>
        dsimp only
        rw [if_neg h3]
        exact gaussLoop_claimIter _ _ _ _ n hn _ _ _ _

/-- Claim C6 witness: the recurrence theorem applied at digits 2, one worker
and sqrt iteration budget 60. -/
theorem engine_state_recurrence_witness :
    outStr (gauss_legendre_pi 2 1 60) = claimRun 2 60 :=
  engine_state_recurrence 2 1 60 (by decide)

/-!
Claims about concrete runs: C1, C5, C7, C8.
-/

/-- Claim C1: for digits 1, 5 and 10 the returned string has length
digits + 2, starts with 3. and equals the decimal expansion of pi truncated
to that many fractional digits; but at digits = 50 the claim fails: the
returned 52-character string agrees with pi only through
3.141592653589793238462643383 and then reads ...65414480794409445377432
where pi continues ...27950288419716939937510, because the averaging step of
every round runs at the worker-default precision 28. -/
theorem pi_string_correct_small_wrong_at_50 :
    outStr (gauss_legendre_pi 1 1 200) = some "3.1" ∧
    outStr (gauss_legendre_pi 5 1 200) = some "3.14159" ∧
    outStr (gauss_legendre_pi 10 1 200) = some "3.1415926535" ∧
    outStr (gauss_legendre_pi 50 1 200) =
      some "3.14159265358979323846264338365414480794409445377432" ∧
    "3.14159265358979323846264338365414480794409445377432" ≠
      "3.14159265358979323846264338327950288419716939937510" ∧
    "3.14159265358979323846264338365414480794409445377432".length = 52 :=
  ⟨by decide, by decide, by decide, by decide, by decide, by decide⟩

/-- Claim C5 is violated by the code: there is no argument validation. With
digits = 0 the run does not fail at all - it performs the full 10-round
computation and returns the 2-character string 3. with ten progress records;
with worker_count = 0 the run proceeds through the context setup and the
initial arithmetic b = 1 / sqrt 2 and only fails with the ValueError raised
by ThreadPoolExecutor when the first round creates the pool. No
InvalidArgument error exists anywhere in the code. -/
theorem no_fail_fast_argument_validation :
    gauss_legendre_pi 0 1 200 = .done "3."
      [(1, 10, 0), (2, 10, 0), (3, 10, 0), (4, 10, 0), (5, 10, 0),
       (6, 10, 0), (7, 10, 0), (8, 10, 0), (9, 10, 0), (10, 10, 0)] ∧
    gauss_legendre_pi 3 0 200 = .error .maxWorkersValueError :=
  ⟨by decide, by decide⟩

/-- Claim C7 is violated by the code: the working precision is not stable for
the lifetime of a run. The averaging sub-computation (a + b) / 2 of every
round runs on a fresh worker thread whose decimal context is a DefaultContext
copy at precision 28, not digits + 10; at digits = 50 the source run
therefore differs from the stable-precision run the spec requires, whose
output is the correctly truncated pi. -/
theorem working_precision_not_stable :
    outStr (gauss_legendre_pi 50 1 200) ≠ outStr (gauss_stable 50 200) ∧
    outStr (gauss_stable 50 200) =
      some "3.14159265358979323846264338327950288419716939937510" :=
  ⟨by decide, by decide⟩

/-- Claim C8 counterexample: in the digits = 5 run the third published
snapshot carries estimated_digits = int((3 / 10) * 5) = 1, while the claimed
formula round((3 / 10) * 5) = round(1.5) gives 2. -/
theorem est_digits_truncated_counterexample :
    callList (gauss_legendre_pi 5 1 200) =
      some [(1, 10, 0), (2, 10, 1), (3, 10, 1), (4, 10, 2), (5, 10, 2),
            (6, 10, 3), (7, 10, 3), (8, 10, 4), (9, 10, 4), (10, 10, 5)] ∧
    claimEst 3 10 5 = 2 ∧ 1 ≠ claimEst 3 10 5 :=
  ⟨by decide, by decide, by decide⟩

/-- Claim C8 amended: after round i (0-based) the published snapshot carries
estimated_digits = floor((i + 1) * digits / total_rounds): int() truncates
the float product rather than rounding it, and for the digit counts verified
here the float truncation equals the exact floor. The published list is
exactly one record per round with these values, for digits 1, 5, 10, 50. -/
theorem est_digits_floor_lists :
    callList (gauss_legendre_pi 1 1 200) =
      some ((List.range (total_iters 1)).map
        (fun i => (i + 1, total_iters 1, (i + 1) * 1 / total_iters 1))) ∧
    callList (gauss_legendre_pi 5 1 200) =
      some ((List.range (total_iters 5)).map
        (fun i => (i + 1, total_iters 5, (i + 1) * 5 / total_iters 5))) ∧
    callList (gauss_legendre_pi 10 1 200) =
      some ((List.range (total_iters 10)).map
        (fun i => (i + 1, total_iters 10, (i + 1) * 10 / total_iters 10))) ∧
    callList (gauss_legendre_pi 50 1 200) =
      some ((List.range (total_iters 50)).map
        (fun i => (i + 1, total_iters 50, (i + 1) * 50 / total_iters 50))) :=
  ⟨by decide, by decide, by decide, by decide⟩

end GaussPi
